import Mathlib

/-!  Shallow embedding of the data-quality engine of fhir_mcp_server.py:
     the gateway error-outcome mapping (_make_request), response validation
     (_validate_fhir_response), quality scoring (_calculate_quality_score),
     per-category assessment (assess_data_quality) and the caller-side
     aggregation in handle_call_tool.  Python dicts with a fixed traversal
     pattern are embedded as structures with Option fields (a missing key
     is none); Python sets of strings are embedded as duplicate-free lists
     built by first-occurrence insertion. -/

namespace FhirMcp

/-- Details object of an OperationOutcome issue (the dict under its details key). -/
structure OutcomeDetails where
  text : Option String
deriving DecidableEq

/-- One issue of an OperationOutcome document. -/
structure OutcomeIssue where
  severity : Option String
  code : Option String
  details : Option OutcomeDetails
deriving DecidableEq

/-- Subject object of a resource, holding an optional reference string. -/
structure Subject where
  reference : Option String
deriving DecidableEq

/-- Generic FHIR resource as traversed by the validator. -/
structure Resource where
  resourceType : Option String
  id : Option String
  subject : Option Subject
deriving DecidableEq

/-- Bundle entry, wrapping an optional resource. -/
structure BundleEntry where
  resource : Option Resource
deriving DecidableEq

/-- Bundle link, with an optional relation tag. -/
structure BundleLink where
  relation : Option String
deriving DecidableEq

/-- FHIR document as traversed by the server: resourceType discriminator,
OperationOutcome issue list, Bundle entry and link lists, Bundle total.
The list-valued keys are read with default `[]` in the source, so an absent
key and an empty list are indistinguishable there and are both `[]` here. -/
structure FHIRResponse where
  resourceType : Option String
  issue : List OutcomeIssue
  entry : List BundleEntry
  total : Option Int
  link : List BundleLink
deriving DecidableEq

/-- Issue of a ValidationResult: all three fields defaulted to strings. -/
structure Issue where
  severity : String
  code : String
  details : String
deriving DecidableEq

/-- The data_quality dict of a ValidationResult; a key is none when the
source never wrote it (the dict stays empty for non-Bundle documents, and
orphaned_patient_refs is written only when orphans are found). -/
structure DataQuality where
  total_resources : Option Int
  returned_resources : Option Nat
  has_next_page : Option Bool
  resource_types : Option (List (Option String))
  orphaned_patient_refs : Option Nat
deriving DecidableEq

/-- ValidationResult as built by _validate_fhir_response. -/
structure ValidationResult where
  is_valid : Bool
  issues : List Issue
  data_quality : DataQuality
  resource_type : String
deriving DecidableEq

/-- The empty data_quality dict. -/
def emptyDataQuality : DataQuality := ⟨none, none, none, none, none⟩

/-- Resource with no keys, the default of entry.get with an empty dict. -/
def emptyResource : Resource := ⟨none, none, none⟩

/-- Python set insertion on a duplicate-free list: add at the end unless present. -/
def insertSet {α : Type} [DecidableEq α] (acc : List α) (x : α) : List α :=
  if x ∈ acc then acc else acc ++ [x]

/-- Python str.split on a single character, over the character list. -/
def splitCharList (c : Char) : List Char → List Char → List String
  | [], acc => [String.mk acc.reverse]
  | x :: xs, acc =>
    if x = c then String.mk acc.reverse :: splitCharList c xs []
    else splitCharList c xs (x :: acc)

/-- Python ref.split(c) for a one-character separator. -/
def pySplit (s : String) (c : Char) : List String := splitCharList c s.data []

/-- One step of the orphaned-reference scan of _validate_fhir_response:
a Patient entry contributes its id to the actual-patient set, any other
entry with a subject.reference containing a slash contributes the substring
after the last slash to the referenced-patient set. -/
def collectStep (acc : List String × List (Option String)) (entry : BundleEntry) :
    List String × List (Option String) :=
  let resource := entry.resource.getD emptyResource
  if resource.resourceType = some "Patient" then
    (acc.1, insertSet acc.2 resource.id)
  else
    match resource.subject with
    | some subj =>
      match subj.reference with
      | some ref =>
        if ref.data.contains '/' then
          (insertSet acc.1 ((pySplit ref '/').getLastD ""), acc.2)
        else acc
      | none => acc
    | none => acc

/-- The pair (patient_refs, actual_patients) of _validate_fhir_response. -/
def collectPatientSets (entries : List BundleEntry) :
    List String × List (Option String) :=
  entries.foldl collectStep ([], [])

/-- The orphaned set: referenced patient ids minus actual patient ids. -/
def orphanedOf (r : FHIRResponse) : List String :=
  ((collectPatientSets r.entry).1).filter
    (fun p => !((collectPatientSets r.entry).2.contains (some p)))

/-- The data_quality dict written for a Bundle document. -/
def bundleDataQuality (r : FHIRResponse) : DataQuality :=
  { total_resources := some (r.total.getD 0)
    returned_resources := some r.entry.length
    has_next_page := some (r.link.any (fun l => l.relation == some "next"))
    resource_types :=
      some (((r.entry.filterMap BundleEntry.resource).map Resource.resourceType).foldl insertSet [])
    orphaned_patient_refs := none }

/-- Embedding of _validate_fhir_response. -/
def validate_fhir_response (r : FHIRResponse) : ValidationResult :=
  if r.resourceType = some "OperationOutcome" then
    { is_valid := false
      issues := r.issue.map (fun i =>
        { severity := i.severity.getD "unknown"
          code := i.code.getD "unknown"
          details := (i.details.getD ⟨none⟩).text.getD "No details" })
      data_quality := emptyDataQuality
      resource_type := r.resourceType.getD "Unknown" }
  else if r.resourceType = some "Bundle" then
    if (collectPatientSets r.entry).1 ≠ [] ∧ (collectPatientSets r.entry).2 ≠ [] then
      if orphanedOf r ≠ [] then
        { is_valid := true
          issues := [⟨"warning", "orphaned-references",
            "Found " ++ toString (orphanedOf r).length ++ " orphaned patient references"⟩]
          data_quality :=
            { bundleDataQuality r with orphaned_patient_refs := some (orphanedOf r).length }
          resource_type := r.resourceType.getD "Unknown" }
      else
        { is_valid := true
          issues := []
          data_quality := bundleDataQuality r
          resource_type := r.resourceType.getD "Unknown" }
    else
      { is_valid := true
        issues := []
        data_quality := bundleDataQuality r
        resource_type := r.resourceType.getD "Unknown" }
  else
    { is_valid := true
      issues := []
      data_quality := emptyDataQuality
      resource_type := r.resourceType.getD "Unknown" }

/-- Embedding of _calculate_quality_score.  All float values the source can
produce are integers (100 minus integer deductions, clamped at 0), so the
score is modelled as an integer. -/
def calculate_quality_score (v : ValidationResult) : Int :=
  if v.is_valid = false then 0
  else
    let score : Int := 100
    let score := v.issues.foldl
      (fun s i =>
        if i.severity = "error" then s - 30
        else if i.severity = "warning" then s - 10
        else s) score
    let score := if 0 < v.data_quality.orphaned_patient_refs.getD 0 then score - 20 else score
    let score := if v.data_quality.total_resources.getD 0 = 0 then score - 50 else score
    max 0 score

/-- Outcome of one HTTP attempt, as seen by the error handling of
_make_request: a response with status code, the text of the status error
the HTTP library would raise for it, and the JSON-parse result of the body;
or a raised timeout, HTTP error, or other exception with its text. -/
inductive HttpAttempt where
  | response (status : Nat) (statusMsg : String) (body : Except String FHIRResponse)
  | timeoutExc
  | httpErrorExc (msg : String)
  | otherExc (msg : String)

/-- OperationOutcome document with one error issue, as built by _make_request. -/
def operationOutcome (code text : String) : FHIRResponse :=
  { resourceType := some "OperationOutcome"
    issue := [⟨some "error", some code, some ⟨some text⟩⟩]
    entry := []
    total := none
    link := [] }

/-- Embedding of the error handling of _make_request: 404, 401 and 403 are
mapped before raise_for_status, any other non-2xx status raises and is
caught by the HTTP-error handler, a 2xx body that fails to parse as JSON is
mapped to an invalid outcome, and raised timeouts, HTTP errors and other
exceptions are each mapped to their outcome document. -/
def make_request (endpoint : String) (a : HttpAttempt) : FHIRResponse :=
  match a with
  | .response status statusMsg body =>
    if status = 404 then operationOutcome "not-found" ("Resource not found: " ++ endpoint)
    else if status = 401 then operationOutcome "security" "Authentication required"
    else if status = 403 then operationOutcome "forbidden" "Access forbidden"
    else if 200 ≤ status ∧ status < 300 then
      match body with
      | .ok result => result
      | .error msg => operationOutcome "invalid" ("Invalid JSON response: " ++ msg)
    else operationOutcome "exception" ("HTTP error: " ++ statusMsg)
  | .timeoutExc => operationOutcome "timeout" "Request timed out"
  | .httpErrorExc msg => operationOutcome "exception" ("HTTP error: " ++ msg)
  | .otherExc msg => operationOutcome "exception" ("Unexpected error: " ++ msg)

/-- Modelled from the spec wording of the Gateway contract: the fixed
(severity, code, detail) triple promised for each failure path, stated in
the spec's order, to be compared with make_request. -/
def specGatewayOutcome (endpoint : String) (a : HttpAttempt) : FHIRResponse :=
  match a with
  | .response status statusMsg body =>
    if status = 404 then operationOutcome "not-found" ("Resource not found: " ++ endpoint)
    else if status = 401 then operationOutcome "security" "Authentication required"
    else if status = 403 then operationOutcome "forbidden" "Access forbidden"
    else if status < 200 ∨ 300 ≤ status then
      operationOutcome "exception" ("HTTP error: " ++ statusMsg)
    else
      match body with
      | .ok result => result
      | .error msg => operationOutcome "invalid" ("Invalid JSON response: " ++ msg)
  | .timeoutExc => operationOutcome "timeout" "Request timed out"
  | .httpErrorExc msg => operationOutcome "exception" ("HTTP error: " ++ msg)
  | .otherExc msg => operationOutcome "exception" ("Unexpected error: " ++ msg)

/-- Per-category record written by assess_data_quality: the success record
stores accessibility, total, issues and score; the exception record stores
accessible false, the error text and score 0, and writes no total or issues
key. -/
structure ResourceAssessment where
  accessible : Bool
  total_available : Option Int
  issues : Option (List Issue)
  data_quality_score : Int
  error : Option String
deriving DecidableEq

/-- The category list of assess_data_quality: the four defaults when the
argument is falsy in Python (absent or the empty string), else the single
supplied category. -/
def testResources (resource_type : Option String) : List String :=
  match resource_type with
  | none => ["Patient", "Observation", "Condition", "MedicationRequest"]
  | some rt =>
    if rt = "" then ["Patient", "Observation", "Condition", "MedicationRequest"]
    else [rt]

/-- Body of the per-category loop of assess_data_quality.  The gateway call
is a function returning either a document or a raised exception's text; the
except branch of the source catches the latter. -/
def assessCategory (req : String → Except String FHIRResponse) (resource : String) :
    ResourceAssessment :=
  match req resource with
  | .ok result =>
    let validation := validate_fhir_response result
    { accessible := validation.is_valid
      total_available := some (validation.data_quality.total_resources.getD 0)
      issues := some validation.issues
      data_quality_score := calculate_quality_score validation
      error := none }
  | .error e =>
    { accessible := false
      total_available := none
      issues := none
      data_quality_score := 0
      error := some e }

/-- Embedding of assess_data_quality: one record per category, in order. -/
def assess_data_quality (req : String → Except String FHIRResponse)
    (resource_type : Option String) : List (String × ResourceAssessment) :=
  (testResources resource_type).map (fun resource => (resource, assessCategory req resource))

/-- The (overall_score, resource_count) accumulation of handle_call_tool's
assess_data_quality branch: only accessible categories contribute. -/
def aggregateScores (entries : List (String × ResourceAssessment)) : Int × Nat :=
  entries.foldl
    (fun acc p =>
      if p.2.accessible then (acc.1 + p.2.data_quality_score, acc.2 + 1) else acc)
    (0, 0)

/-- The overall average reported by handle_call_tool: defined only when at
least one category was accessible. -/
def overallAverage (entries : List (String × ResourceAssessment)) : Option ℚ :=
  if 0 < (aggregateScores entries).2 then
    some (((aggregateScores entries).1 : ℚ) / ((aggregateScores entries).2 : ℚ))
  else none

/-- Stub gateway that models a raised exception for every category. -/
def stubReqErr : String → Except String FHIRResponse := fun _ => Except.error "unreachable"

/-- Concrete valid result with one warning issue and total 0, the spec's
stacking example. -/
def vWarnZero : ValidationResult :=
  { is_valid := true
    issues := [⟨"warning", "w", "d"⟩]
    data_quality := ⟨some 0, some 0, some false, some [], none⟩
    resource_type := "Bundle" }

/-- Concrete 404-mapped OperationOutcome document. -/
def outcome404 : FHIRResponse := operationOutcome "not-found" "Resource not found: Patient"

/-- Concrete invalid ValidationResult. -/
def invalidResult : ValidationResult :=
  { is_valid := false
    issues := []
    data_quality := emptyDataQuality
    resource_type := "OperationOutcome" }

/-- Concrete Bundle with one Patient entry (id 1) and one Observation entry
referencing Patient/2. -/
def bundle1 : FHIRResponse :=
  { resourceType := some "Bundle"
    issue := []
    entry := [⟨some ⟨some "Patient", some "1", none⟩⟩,
              ⟨some ⟨some "Observation", some "o1", some ⟨some "Patient/2"⟩⟩⟩]
    total := some 2
    link := [] }

/-- Concrete Bundle with one Observation entry referencing Patient/99 and
zero Patient entries. -/
def bundle99 : FHIRResponse :=
  { resourceType := some "Bundle"
    issue := []
    entry := [⟨some ⟨some "Observation", some "o1", some ⟨some "Patient/99"⟩⟩⟩]
    total := some 1
    link := [] }

/-- Concrete Bundle with a positive total and nothing wrong. -/
def bundleTotal5 : FHIRResponse :=
  { resourceType := some "Bundle"
    issue := []
    entry := []
    total := some 5
    link := [] }

/-- Stub gateway returning the 404-mapped outcome for Patient and a raised
exception for every other category. -/
def stubReq : String → Except String FHIRResponse :=
  fun res => if res = "Patient" then Except.ok outcome404 else Except.error "boom"

/-- The record assess_data_quality writes for Patient under stubReq. -/
def rec404 : ResourceAssessment := assessCategory stubReq "Patient"

/-- The record assess_data_quality writes for Observation under stubReq. -/
def recErr : ResourceAssessment := assessCategory stubReq "Observation"

/-- Concrete single Patient resource document. -/
def patientDoc : FHIRResponse :=
  { resourceType := some "Patient"
    issue := []
    entry := []
    total := none
    link := [] }

/-- A result that is not valid scores 0 with no deductions considered. -/
theorem score_of_invalid (v : ValidationResult) (h : v.is_valid = false) :
    calculate_quality_score v = 0 := by
  simp [calculate_quality_score, h]

/-- An OperationOutcome document validates as invalid. -/
theorem validate_outcome_invalid (r : FHIRResponse)
    (h : r.resourceType = some "OperationOutcome") :
    (validate_fhir_response r).is_valid = false := by
  simp [validate_fhir_response, h]

/-- The issue fold of _calculate_quality_score deducts 30 per error issue
and 10 per warning issue from its starting value. -/
theorem score_foldl (issues : List Issue) (s : Int) :
    issues.foldl
      (fun s i =>
        if i.severity = "error" then s - 30
        else if i.severity = "warning" then s - 10
        else s) s
      = s - 30 * ((issues.filter (fun i => i.severity = "error")).length : Int)
          - 10 * ((issues.filter (fun i => i.severity = "warning")).length : Int) := by
  induction issues generalizing s with
  | nil => simp
  | cons i rest ih =>
    by_cases h1 : i.severity = "error"
    · have h2 : ¬ (i.severity = "warning") := by rw [h1]; decide
      simp only [List.foldl_cons, List.filter_cons, h1, h2, if_pos, if_neg, ih,
        decide_eq_true_eq]
      simp [h1, h2]
      ring
    · by_cases h2 : i.severity = "warning"
      · simp only [List.foldl_cons, List.filter_cons, ih]
        simp [h1, h2]
        ring
      · simp only [List.foldl_cons, List.filter_cons, ih]
        simp [h1, h2]

/-- Claim C1: for every valid ValidationResult the quality score starts at
100, deducts 30 per error issue and 10 per warning issue (other severities
deduct nothing), additionally deducts a flat 20 when
orphaned_patient_refs is positive and a flat 50 when total_resources is 0,
all deductions additive, clamped below at 0. -/
theorem quality_score_formula (v : ValidationResult) (h : v.is_valid = true) :
    calculate_quality_score v =
      max 0 (100
        - 30 * ((v.issues.filter (fun i => i.severity = "error")).length : Int)
        - 10 * ((v.issues.filter (fun i => i.severity = "warning")).length : Int)
        - (if 0 < v.data_quality.orphaned_patient_refs.getD 0 then 20 else 0)
        - (if v.data_quality.total_resources.getD 0 = 0 then 50 else 0)) := by
  simp only [calculate_quality_score, h, score_foldl]
  norm_num
  split_ifs <;> omega

/-- Witness for C1: a valid result with one warning issue and total 0
satisfies the formula and scores exactly 100 - 10 - 50 = 40. -/
theorem quality_score_formula_witness :
    (calculate_quality_score vWarnZero =
      max 0 (100
        - 30 * ((vWarnZero.issues.filter (fun i => i.severity = "error")).length : Int)
        - 10 * ((vWarnZero.issues.filter (fun i => i.severity = "warning")).length : Int)
        - (if 0 < vWarnZero.data_quality.orphaned_patient_refs.getD 0 then 20 else 0)
        - (if vWarnZero.data_quality.total_resources.getD 0 = 0 then 50 else 0))) ∧
    calculate_quality_score vWarnZero = 40 :=
  ⟨quality_score_formula vWarnZero rfl, by decide⟩

/-- Claim C2: a document whose resourceType is OperationOutcome validates
as invalid, its issues are copied with severity and code defaulting to
unknown and details text defaulting to No details, no further analysis is
performed (data_quality stays empty), its score is 0, and any invalid
result scores exactly 0. -/
theorem outcome_invalid_scores_zero (r : FHIRResponse) (v : ValidationResult)
    (hr : r.resourceType = some "OperationOutcome") (hv : v.is_valid = false) :
    (validate_fhir_response r).is_valid = false ∧
    (validate_fhir_response r).issues = r.issue.map (fun i =>
      ⟨i.severity.getD "unknown", i.code.getD "unknown",
        (i.details.getD ⟨none⟩).text.getD "No details"⟩) ∧
    (validate_fhir_response r).data_quality = emptyDataQuality ∧
    calculate_quality_score (validate_fhir_response r) = 0 ∧
    calculate_quality_score v = 0 := by
  refine ⟨validate_outcome_invalid r hr, ?_, ?_,
    score_of_invalid _ (validate_outcome_invalid r hr), score_of_invalid v hv⟩ <;>
  simp [validate_fhir_response, hr]

/-- Witness for C2: the 404-mapped outcome document and a concrete invalid
result. -/
theorem outcome_invalid_scores_zero_witness :
    (validate_fhir_response outcome404).is_valid = false ∧
    (validate_fhir_response outcome404).issues = outcome404.issue.map (fun i =>
      ⟨i.severity.getD "unknown", i.code.getD "unknown",
        (i.details.getD ⟨none⟩).text.getD "No details"⟩) ∧
    (validate_fhir_response outcome404).data_quality = emptyDataQuality ∧
    calculate_quality_score (validate_fhir_response outcome404) = 0 ∧
    calculate_quality_score invalidResult = 0 :=
  outcome_invalid_scores_zero outcome404 invalidResult rfl rfl

/-- Claim C3: in a Bundle where the referenced-patient set and the
actual-patient set are both non-empty and their difference is non-empty,
validation appends exactly one warning/orphaned-references issue with
details naming the count and records the count in
data_quality.orphaned_patient_refs. -/
theorem orphaned_refs_flagged (r : FHIRResponse)
    (hb : r.resourceType = some "Bundle")
    (h1 : (collectPatientSets r.entry).1 ≠ [])
    (h2 : (collectPatientSets r.entry).2 ≠ [])
    (h3 : orphanedOf r ≠ []) :
    (validate_fhir_response r).issues =
      [⟨"warning", "orphaned-references",
        "Found " ++ toString (orphanedOf r).length ++ " orphaned patient references"⟩] ∧
    (validate_fhir_response r).data_quality.orphaned_patient_refs =
      some (orphanedOf r).length := by
  simp [validate_fhir_response, hb, h1, h2, h3]

/-- Witness for C3: a Bundle with one Patient entry (id 1) and one
Observation entry referencing Patient/2 has exactly one orphaned reference
and the warning issue. -/
theorem orphaned_refs_flagged_witness :
    (orphanedOf bundle1).length = 1 ∧
    (validate_fhir_response bundle1).issues =
      [⟨"warning", "orphaned-references",
        "Found " ++ toString (orphanedOf bundle1).length ++ " orphaned patient references"⟩] ∧
    (validate_fhir_response bundle1).data_quality.orphaned_patient_refs =
      some (orphanedOf bundle1).length :=
  ⟨by decide,
   (orphaned_refs_flagged bundle1 rfl (by decide) (by decide) (by decide)).1,
   (orphaned_refs_flagged bundle1 rfl (by decide) (by decide) (by decide)).2⟩

/-- A collect step over a non-Patient entry leaves the actual-patient set
unchanged. -/
theorem collectStep_snd (acc : List String × List (Option String)) (e : BundleEntry)
    (h : (e.resource.getD emptyResource).resourceType ≠ some "Patient") :
    (collectStep acc e).2 = acc.2 := by
  simp only [collectStep, if_neg h]
  split
  · split
    · split <;> rfl
    · rfl
  · rfl

/-- Folding the collect step over entries without Patient resources leaves
the actual-patient set unchanged. -/
theorem collect_foldl_snd : ∀ (entries : List BundleEntry),
    (∀ e ∈ entries, (e.resource.getD emptyResource).resourceType ≠ some "Patient") →
    ∀ acc, (entries.foldl collectStep acc).2 = acc.2
  | [], _, _ => rfl
  | e :: rest, h, acc => by
    rw [List.foldl_cons]
    rw [collect_foldl_snd rest (fun x hx => h x (List.mem_cons_of_mem _ hx)) _]
    exact collectStep_snd acc e (h e (List.mem_cons_self _ _))

/-- Claim C4: orphan detection requires both sets non-empty; a Bundle with
at least one entry referencing a patient but no Patient entries records no
orphaned_patient_refs count and appends no issue. -/
theorem orphan_detection_needs_patients (r : FHIRResponse)
    (hb : r.resourceType = some "Bundle")
    (h1 : (collectPatientSets r.entry).1 ≠ [])
    (h2 : ∀ e ∈ r.entry, (e.resource.getD emptyResource).resourceType ≠ some "Patient") :
    (validate_fhir_response r).data_quality.orphaned_patient_refs = none ∧
    (validate_fhir_response r).issues = [] := by
  have hsnd : (collectPatientSets r.entry).2 = [] := collect_foldl_snd r.entry h2 ([], [])
  simp [validate_fhir_response, hb, hsnd, bundleDataQuality]

/-- Witness for C4: a Bundle with one Observation entry referencing
Patient/99 and zero Patient entries. -/
theorem orphan_detection_needs_patients_witness :
    (validate_fhir_response bundle99).data_quality.orphaned_patient_refs = none ∧
    (validate_fhir_response bundle99).issues = [] :=
  orphan_detection_needs_patients bundle99 rfl (by decide) (by decide)

/-- Claim C5: a Bundle whose validation yields no issues, whose total is
positive, and hence with no orphaned references detected, scores exactly
100. -/
theorem clean_bundle_scores_100 (r : FHIRResponse)
    (hb : r.resourceType = some "Bundle")
    (hi : (validate_fhir_response r).issues = [])
    (ht : 0 < r.total.getD 0) :
    calculate_quality_score (validate_fhir_response r) = 100 := by
  have hOO : ¬ (r.resourceType = some "OperationOutcome") := by simp [hb]
  rw [validate_fhir_response, if_neg hOO, if_pos hb] at hi ⊢
  by_cases hcond : (collectPatientSets r.entry).1 ≠ [] ∧ (collectPatientSets r.entry).2 ≠ []
  · rw [if_pos hcond] at hi ⊢
    by_cases horph : orphanedOf r ≠ []
    · rw [if_pos horph] at hi
      exact absurd hi (by simp)
    · rw [if_neg horph]
      simp only [calculate_quality_score, bundleDataQuality]
      norm_num
      omega
  · rw [if_neg hcond]
    simp only [calculate_quality_score, bundleDataQuality]
    norm_num
    omega

/-- Witness for C5: a Bundle with total 5 and nothing wrong scores 100. -/
theorem clean_bundle_scores_100_witness :
    calculate_quality_score (validate_fhir_response bundleTotal5) = 100 :=
  clean_bundle_scores_100 bundleTotal5 rfl (by decide) (by decide)

/-- Claim C6: make_request never throws and maps every failure path to the
OperationOutcome with the fixed (severity, code, details) triple promised
by the spec: 404 to not-found, 401 to security, 403 to forbidden, any other
non-2xx status to an HTTP-error exception outcome, an unparseable body to
invalid, a timeout to timeout, and any other failure to exception; a 2xx
response with a parseable body is returned as is.  Being a total function
into documents, every path returns a structured outcome. -/
theorem gateway_never_throws (endpoint : String) (a : HttpAttempt) :
    make_request endpoint a = specGatewayOutcome endpoint a := by
  cases a with
  | timeoutExc => rfl
  | httpErrorExc m => rfl
  | otherExc m => rfl
  | response s m b =>
    simp only [make_request, specGatewayOutcome]
    split_ifs <;> first
      | rfl
      | (exfalso; omega)

/-- Claim C7: assess_data_quality never raises (it is a total function),
assesses every category of its list, marks a category whose gateway call
returns an OperationOutcome as inaccessible with score 0, and marks a
category whose gateway call raises as inaccessible with score 0 and the
error text, without aborting the remaining categories. -/
theorem assess_isolates (req : String → Except String FHIRResponse) (rt : Option String) :
    (assess_data_quality req rt).map Prod.fst = testResources rt ∧
    ∀ res rec, (res, rec) ∈ assess_data_quality req rt →
      (∀ doc, req res = Except.ok doc → doc.resourceType = some "OperationOutcome" →
        rec.accessible = false ∧ rec.data_quality_score = 0) ∧
      (∀ e, req res = Except.error e →
        rec.accessible = false ∧ rec.data_quality_score = 0 ∧ rec.error = some e) := by
  constructor
  · simp [assess_data_quality, Function.comp_def]
  · intro res rec hmem
    simp only [assess_data_quality, List.mem_map] at hmem
    obtain ⟨a, ha, heq⟩ := hmem
    rw [Prod.mk.injEq] at heq
    obtain ⟨rfl, rfl⟩ := heq
    constructor
    · intro doc hok hOO
      simp only [assessCategory, hok]
      exact ⟨validate_outcome_invalid doc hOO,
        score_of_invalid _ (validate_outcome_invalid doc hOO)⟩
    · intro e herr
      simp [assessCategory, herr]

/-- Witness for C7: under a stub gateway whose Patient call returns the
404-mapped outcome and whose other calls raise, the Patient record and the
Observation record are both inaccessible with score 0. -/
theorem assess_isolates_witness :
    (rec404.accessible = false ∧ rec404.data_quality_score = 0) ∧
    (recErr.accessible = false ∧ recErr.data_quality_score = 0 ∧
      recErr.error = some "boom") :=
  ⟨((assess_isolates stubReq none).2 "Patient" rec404 (by decide)).1 outcome404 rfl rfl,
   ((assess_isolates stubReq none).2 "Observation" recErr (by decide)).2 "boom" rfl⟩

/-- Claim C8 counterexample: supplying the empty string as resource_type is
supplying a single resource_type, yet the four default categories are
evaluated, not only the supplied one (the source tests Python truthiness,
not presence). -/
theorem assess_empty_string_not_single :
    (assess_data_quality stubReqErr (some "")).map Prod.fst =
      ["Patient", "Observation", "Condition", "MedicationRequest"] ∧
    (assess_data_quality stubReqErr (some "")).map Prod.fst ≠ [""] := by
  constructor
  · rfl
  · decide

/-- Claim C8 (amended): with no resource_type, assess_data_quality
evaluates exactly the categories Patient, Observation, Condition,
MedicationRequest in that fixed order; with a single non-empty
resource_type it evaluates only that one category. -/
theorem assess_category_selection (req : String → Except String FHIRResponse) :
    (assess_data_quality req none).map Prod.fst =
      ["Patient", "Observation", "Condition", "MedicationRequest"] ∧
    ∀ rt : String, rt ≠ "" →
      (assess_data_quality req (some rt)).map Prod.fst = [rt] := by
  constructor
  · simp [assess_data_quality, testResources]
  · intro rt h
    simp [assess_data_quality, testResources, h]

/-- Witness for the amended C8: the default run and a Patient-only run. -/
theorem assess_category_selection_witness :
    (assess_data_quality stubReqErr none).map Prod.fst =
      ["Patient", "Observation", "Condition", "MedicationRequest"] ∧
    (assess_data_quality stubReqErr (some "Patient")).map Prod.fst = ["Patient"] :=
  ⟨(assess_category_selection stubReqErr).1,
   (assess_category_selection stubReqErr).2 "Patient" (by decide)⟩

/-- The accumulation of handle_call_tool equals the sum and count of the
accessible categories. -/
theorem aggregateScores_foldl (entries : List (String × ResourceAssessment)) :
    ∀ a b, entries.foldl
      (fun acc p =>
        if p.2.accessible then (acc.1 + p.2.data_quality_score, acc.2 + 1) else acc)
      (a, b)
      = (a + ((entries.filter (fun p => p.2.accessible)).map
            (fun p => p.2.data_quality_score)).sum,
         b + (entries.filter (fun p => p.2.accessible)).length) := by
  induction entries with
  | nil => intro a b; simp
  | cons p rest ih =>
    intro a b
    by_cases hp : p.2.accessible
    · simp only [List.foldl_cons, List.filter_cons, hp, if_pos, ih, List.map_cons,
        List.sum_cons, List.length_cons]
      rw [Prod.mk.injEq]
      constructor <;> omega
    · simp only [List.foldl_cons, List.filter_cons, hp, ih]
      simp [hp]

/-- Claim C9: the caller-side overall average is the mean of the scores of
the accessible categories only; inaccessible categories are excluded from
the denominator, and with zero accessible categories no average is
reported. -/
theorem average_excludes_inaccessible (entries : List (String × ResourceAssessment)) :
    overallAverage entries =
      if (entries.filter (fun p => p.2.accessible)).length = 0 then none
      else some
        ((((entries.filter (fun p => p.2.accessible)).map
            (fun p => p.2.data_quality_score)).sum : ℚ) /
         ((entries.filter (fun p => p.2.accessible)).length : ℚ)) := by
  have h : aggregateScores entries =
      (((entries.filter (fun p => p.2.accessible)).map
          (fun p => p.2.data_quality_score)).sum,
       (entries.filter (fun p => p.2.accessible)).length) := by
    rw [aggregateScores, aggregateScores_foldl]
    simp
  rw [overallAverage, h]
  by_cases hz : (entries.filter (fun p => p.2.accessible)).length = 0
  · simp [hz]
  · simp [hz, Nat.pos_of_ne_zero hz, Function.comp_def]

/-- Claim C10: a document whose resourceType is neither OperationOutcome
nor Bundle validates as valid with no issues and an empty data_quality
map, and scores exactly 50 because the zero-total deduction applies to the
empty map. -/
theorem other_document_scores_50 (r : FHIRResponse)
    (h1 : r.resourceType ≠ some "OperationOutcome")
    (h2 : r.resourceType ≠ some "Bundle") :
    (validate_fhir_response r).is_valid = true ∧
    (validate_fhir_response r).issues = [] ∧
    (validate_fhir_response r).data_quality = emptyDataQuality ∧
    calculate_quality_score (validate_fhir_response r) = 50 := by
  rw [validate_fhir_response, if_neg h1, if_neg h2]
  exact ⟨rfl, rfl, rfl, rfl⟩

/-- Witness for C10: a single Patient resource document scores 50. -/
theorem other_document_scores_50_witness :
    (validate_fhir_response patientDoc).is_valid = true ∧
    (validate_fhir_response patientDoc).issues = [] ∧
    (validate_fhir_response patientDoc).data_quality = emptyDataQuality ∧
    calculate_quality_score (validate_fhir_response patientDoc) = 50 :=
  other_document_scores_50 patientDoc (by decide) (by decide)

end FhirMcp
